import Mathlib

/-
Shallow embedding of the viewer module of this repository
(src/unnamed/part_000, a three.js based GLB viewer for the Kjellberg
textured model).

Conventions of the embedding:
* JS numbers are modelled by an arbitrary linear ordered field K.
  Theorems about the trigonometric framing computation instantiate K
  with the real numbers and the tangent with Real.tan; the
  state-machine theorems hold for every K.
* The external three.js objects that the code reads and writes
  (renderer, scene, camera, OrbitControls target, textures, materials)
  are modelled by records carrying exactly the fields the code
  touches; in-place mutation becomes functional record update.
* The asynchronous callbacks passed to loader.load in loadGLBModel are
  modelled as separate state transitions (onLoadSuccess for the success
  callback, onLoadError for the error callback), and the geometric
  bounding-box computation THREE.Box3().setFromObject, which lives in
  the external engine, is an abstract parameter of onLoadSuccess.
  Box3 getSize and getCenter follow the three.js convention that an
  empty box yields the zero vector for both.
-/

/- JS runtime values that can sit in the colorSpace or encoding slot of
a texture: undefined, a string constant, or a numeric constant. -/
inductive JSVal where
  | undef
  | str (s : String)
  | num (n : Int)
deriving DecidableEq

/- The constants the code reads off the global THREE object.  The field
named SRGBEncoding models the property access THREE.SRGBEncoding in the
source (lines 162 and 169), which is a different property from
THREE.sRGBEncoding (line 154); in three.js builds that still have the
legacy encoding API, sRGBEncoding is the numeric constant 3001 and no
constant named SRGBEncoding exists, so that property access yields
undefined. -/
structure ThreeEnv where
  SRGBColorSpace : JSVal
  sRGBEncoding : JSVal
  SRGBEncoding : JSVal
deriving DecidableEq

/- A texture slot as the code sees it: whether the colorSpace and
encoding properties are supported by this build (the JS in-checks),
their current values, and the vertical flip flag. -/
structure Texture where
  hasColorSpace : Bool
  colorSpace : JSVal
  hasEncoding : Bool
  encoding : JSVal
  flipY : Bool
deriving DecidableEq

/- A material with the three texture slots that adjustMaterial touches,
plus the needsUpdate flag it sets. -/
structure Material where
  map : Option Texture
  emissiveMap : Option Texture
  lightMap : Option Texture
  needsUpdate : Bool
deriving DecidableEq

/- The mat.map block of adjustMaterial (source lines 149 to 157):
colorSpace if supported, else the legacy encoding property, and then
flipY is cleared unconditionally. -/
def adjustMap (env : ThreeEnv) (t : Texture) : Texture :=
  let t1 :=
    if t.hasColorSpace then { t with colorSpace := env.SRGBColorSpace }
    else if t.hasEncoding then { t with encoding := env.sRGBEncoding }
    else t
  { t1 with flipY := false }

/- The mat.emissiveMap block (source lines 158 to 164); note the
fallback writes env.SRGBEncoding, exactly as the source does. -/
def adjustEmissiveMap (env : ThreeEnv) (t : Texture) : Texture :=
  if t.hasColorSpace then { t with colorSpace := env.SRGBColorSpace }
  else if t.hasEncoding then { t with encoding := env.SRGBEncoding }
  else t

/- The mat.lightMap block (source lines 165 to 171); the fallback also
writes env.SRGBEncoding. -/
def adjustLightMap (env : ThreeEnv) (t : Texture) : Texture :=
  if t.hasColorSpace then { t with colorSpace := env.SRGBColorSpace }
  else if t.hasEncoding then { t with encoding := env.SRGBEncoding }
  else t

/- adjustMaterial (source lines 147 to 174): each present texture slot
is adjusted, absent slots are left alone, and needsUpdate is set. -/
def adjustMaterial (env : ThreeEnv) (m : Material) : Material :=
  { map := Option.map (adjustMap env) m.map,
    emissiveMap := Option.map (adjustEmissiveMap env) m.emissiveMap,
    lightMap := Option.map (adjustLightMap env) m.lightMap,
    needsUpdate := true }

/- n.material in the traversal callback: absent, a single material, or
an array of materials. -/
inductive MaterialSlot where
  | noMat
  | single (m : Material)
  | multi (ms : List Material)
deriving DecidableEq

/- The scene graph: a rose tree of nodes, each with its isMesh flag,
its material slot and its children. -/
mutual

inductive SceneNode : Type where
  | mk (isMesh : Bool) (material : MaterialSlot) (children : SceneForest)

inductive SceneForest : Type where
  | nil : SceneForest
  | cons (head : SceneNode) (tail : SceneForest) : SceneForest

end

/- The body of the traversal callback (source lines 118 to 124): only
mesh nodes with a material are touched; an array material is mapped
elementwise. -/
def adjustSlot (env : ThreeEnv) : MaterialSlot → MaterialSlot
  | MaterialSlot.noMat => MaterialSlot.noMat
  | MaterialSlot.single m => MaterialSlot.single (adjustMaterial env m)
  | MaterialSlot.multi ms => MaterialSlot.multi (ms.map (adjustMaterial env))

/- model.traverse with the adjustMaterial callback (source lines 117 to
125): every node of the tree is visited once. -/
mutual

def normalizeNode (env : ThreeEnv) : SceneNode → SceneNode
  | SceneNode.mk isMesh material children =>
      SceneNode.mk isMesh
        (if isMesh then adjustSlot env material else material)
        (normalizeForest env children)

def normalizeForest (env : ThreeEnv) : SceneForest → SceneForest
  | SceneForest.nil => SceneForest.nil
  | SceneForest.cons n f => SceneForest.cons (normalizeNode env n) (normalizeForest env f)

end

variable {K : Type} [LinearOrderedField K]

set_option linter.unusedSectionVars false

/- A three.js Vector3. -/
structure Vec3 (K : Type) where
  x : K
  y : K
  z : K
deriving DecidableEq

/- A three.js Box3 as produced by setFromObject: either the empty box
(no geometry contributed) or a box given by its two corners. -/
inductive Box3 (K : Type) where
  | empty
  | corners (lo hi : Vec3 K)

/- Box3.getSize: the empty box reports the zero vector, otherwise the
componentwise difference of the corners (three.js semantics). -/
def boxSize : Box3 K → Vec3 K
  | Box3.empty => ⟨0, 0, 0⟩
  | Box3.corners lo hi => ⟨hi.x - lo.x, hi.y - lo.y, hi.z - lo.z⟩

/- Box3.getCenter: the empty box reports the zero vector, otherwise the
componentwise midpoint of the corners (three.js semantics). -/
def boxCenter : Box3 K → Vec3 K
  | Box3.empty => ⟨0, 0, 0⟩
  | Box3.corners lo hi => ⟨(lo.x + hi.x) / 2, (lo.y + hi.y) / 2, (lo.z + hi.z) / 2⟩

/- maxDim of frameModel (source line 185). -/
def maxDimOf (box : Box3 K) : K :=
  max (boxSize box).x (max (boxSize box).y (boxSize box).z)

/- A box produced by setFromObject is empty or has ordered corners. -/
def boxWF : Box3 K → Prop
  | Box3.empty => True
  | Box3.corners lo hi => lo.x ≤ hi.x ∧ lo.y ≤ hi.y ∧ lo.z ≤ hi.z

/- A degenerate bounding volume: empty, or of zero volume. -/
def degenerateVolume (box : Box3 K) : Prop :=
  box = Box3.empty ∨ (boxSize box).x * (boxSize box).y * (boxSize box).z = 0

/- The transcendental operations the code takes from the JS Math
object and from three.js: Math.tan and Math.PI.  Theorems about the
real behaviour instantiate this with Real.tan and Real.pi. -/
structure FloatOps (K : Type) where
  tan : K → K
  pi : K

/- The distance computation of frameModel (source lines 187 to 189):
distance = maxDim / (2 * tan(fov / 2)), then distance * 1.5 + 0.5. -/
def frameDistance (ops : FloatOps K) (maxDim fovRad : K) : K :=
  maxDim / (2 * ops.tan (fovRad / 2)) * 1.5 + 0.5

/- The camera fields the code reads and writes: position, fov in
degrees (as stored by THREE.PerspectiveCamera), aspect, near, far. -/
structure CameraState (K : Type) where
  position : Vec3 K
  fov : K
  aspect : K
  near : K
  far : K
deriving DecidableEq

/- The OrbitControls state the code touches: the orbit target. -/
structure ControlsState (K : Type) where
  target : Vec3 K
deriving DecidableEq

/- initialCameraState (source lines 203 to 206): a value snapshot of
camera position and controls target, stored via clone(). -/
structure PoseSnapshot (K : Type) where
  position : Vec3 K
  target : Vec3 K
deriving DecidableEq

/- The loading element: its text, whether it is displayed, and whether
showError has switched it to the red error styling. -/
structure UIState where
  loadingVisible : Bool
  loadingText : String
  errorStyle : Bool
deriving DecidableEq

/- The module-level state of the viewer (source lines 10 to 12 plus the
renderer, scene and camera slots and whether loader.load was called). -/
structure ViewerState (K : Type) where
  camera : CameraState K
  controls : Option (ControlsState K)
  modelGroup : SceneForest
  initialCameraState : Option (PoseSnapshot K)
  rendW : K
  rendH : K
  pxScale : K
  ui : UIState
  hasRenderer : Bool
  hasScene : Bool
  hasCamera : Bool
  loadStarted : Bool

/- What the startup environment provides: which capability classes
resolve, the container size, and the device pixel ratio. -/
structure InitEnv (K : Type) where
  hasOrbit : Bool
  hasLoader : Bool
  hasDraco : Bool
  containerW : K
  containerH : K
  dpx : K

/- The parsed result handed to the success callback: gltf.scene and
gltf.scenes. -/
structure GLTF where
  scene : Option SceneNode
  scenes : List SceneNode

/- showError (source lines 224 to 233), with the loading element
present: set the message, show the element, switch to error styling. -/
def showError (msg : String) (s : ViewerState K) : ViewerState K :=
  { s with ui := { loadingVisible := true, loadingText := msg, errorStyle := true } }

/- gltf.scene with fallback to gltf.scenes[0] (source line 107). -/
def selectScene (g : GLTF) : Option SceneNode :=
  match g.scene with
  | Option.some m => Option.some m
  | Option.none => g.scenes.head?

/- frameModel (source lines 176 to 207): compute size, center and
maxDim of the box, convert the camera fov from degrees to radians,
derive the distance, move the camera to center plus distance along the
z axis, set near and far, retarget the controls on the center, and
snapshot position and target as initialCameraState. -/
def frameModel (ops : FloatOps K) (box : Box3 K) (s : ViewerState K) : ViewerState K :=
  let size := boxSize box
  let center := boxCenter box
  let maxDim := max size.x (max size.y size.z)
  let fov := s.camera.fov * (ops.pi / 180)
  let distance := frameDistance ops maxDim fov
  let camPos : Vec3 K := ⟨center.x, center.y, center.z + distance⟩
  { s with
    camera := { s.camera with
      position := camPos,
      near := max 0.01 (distance / 1000),
      far := distance * 100 },
    controls := Option.map (fun c => { c with target := center }) s.controls,
    initialCameraState := Option.some { position := camPos, target := center } }

/- The success callback of loader.load (source lines 103 to 132): clear
the previous contents of modelGroup, pick the scene, bail out through
showError if there is none, otherwise attach the scene, normalize its
materials, frame the camera on the group and hide the loading text.
boxOf stands for THREE.Box3().setFromObject on the group. -/
def onLoadSuccess (ops : FloatOps K) (boxOf : SceneForest → Box3 K) (env : ThreeEnv)
    (s : ViewerState K) (g : GLTF) : ViewerState K :=
  let s1 := { s with modelGroup := SceneForest.nil }
  match selectScene g with
  | Option.none => showError ("Loaded file contains no scene.") s1
  | Option.some model =>
      let s2 := { s1 with
        modelGroup := SceneForest.cons (normalizeNode env model) SceneForest.nil }
      let s3 := frameModel ops (boxOf s2.modelGroup) s2
      { s3 with ui := { s3.ui with loadingVisible := false } }

/- The error callback of loader.load (source lines 140 to 143): log and
show the error message; nothing else is touched. -/
def onLoadError (s : ViewerState K) : ViewerState K :=
  showError ("Failed to load 3D model. See console for details.") s

/- resetView (source lines 209 to 214): a no-op without a stored
initial state, otherwise copy the stored position and target back. -/
def resetView (s : ViewerState K) : ViewerState K :=
  match s.initialCameraState with
  | Option.none => s
  | Option.some snap =>
      { s with
        camera := { s.camera with position := snap.position },
        controls := Option.map (fun c => { c with target := snap.target }) s.controls }

/- An arbitrary intervening navigation: the external OrbitControls
interaction mutates the live camera position and the orbit target. -/
def navigate (p t : Vec3 K) (s : ViewerState K) : ViewerState K :=
  { s with
    camera := { s.camera with position := p },
    controls := Option.map (fun c => { c with target := t }) s.controls }

/- onWindowResize (source lines 216 to 222): recompute the aspect from
the container size and resize the render surface. -/
def onWindowResize (w h : K) (s : ViewerState K) : ViewerState K :=
  { s with
    camera := { s.camera with aspect := w / h },
    rendW := w,
    rendH := h }

/- The synchronous body of loadGLBModel (source lines 78 to 101): the
loader capability is mandatory, missing DRACO only warns, and on
success the asynchronous load is started. -/
def loadGLBModel (env : InitEnv K) (s : ViewerState K) : ViewerState K :=
  if env.hasLoader then { s with loadStarted := true }
  else showError ("GLTFLoader not available in this build of three.js.") s

/- init (source lines 17 to 76): renderer, scene and camera are created
unconditionally, with fov 45, aspect from the container, near 0.1, far
10000, position (0, 5, 10), and the pixel ratio capped at 2; then the
OrbitControls capability is probed, and on failure init shows an error
and returns before the load is started. -/
def initViewer (env : InitEnv K) (ui0 : UIState) : ViewerState K :=
  let s0 : ViewerState K :=
    { camera := { position := ⟨0, 5, 10⟩, fov := 45,
                  aspect := env.containerW / env.containerH, near := 0.1, far := 10000 },
      controls := Option.none,
      modelGroup := SceneForest.nil,
      initialCameraState := Option.none,
      rendW := env.containerW,
      rendH := env.containerH,
      pxScale := min env.dpx 2,
      ui := ui0,
      hasRenderer := true,
      hasScene := true,
      hasCamera := true,
      loadStarted := false }
  if env.hasOrbit then
    loadGLBModel env { s0 with controls := Option.some { target := ⟨0, 0, 0⟩ } }
  else
    showError ("OrbitControls not available in this build of three.js.") s0

/- The render guard of animate (source line 238): a frame is rendered
exactly when renderer, scene and camera all exist. -/
def rendersFrame (s : ViewerState K) : Bool :=
  s.hasRenderer && s.hasScene && s.hasCamera

/- Concrete sample data used by witnesses and counterexamples. -/

/- A three.js build with the legacy encoding API: sRGBEncoding is the
numeric constant 3001, and there is no constant named SRGBEncoding, so
that property reads as undefined. -/
def threeStd : ThreeEnv :=
  { SRGBColorSpace := JSVal.str "srgb",
    sRGBEncoding := JSVal.num 3001,
    SRGBEncoding := JSVal.undef }

/- A texture that only supports the legacy encoding property, currently
tagged with the linear encoding 3000. -/
def texEnc : Texture :=
  { hasColorSpace := false,
    colorSpace := JSVal.undef,
    hasEncoding := true,
    encoding := JSVal.num 3000,
    flipY := true }

/- A material whose emissive slot carries texEnc. -/
def matEmissive : Material :=
  { map := Option.none,
    emissiveMap := Option.some texEnc,
    lightMap := Option.none,
    needsUpdate := false }

/- Toy transcendental operations over the rationals, used only to give
the state-machine witnesses fully computable concrete inputs. -/
def toyOps : FloatOps ℚ :=
  { tan := fun x => x, pi := 3 }

/- The loading element as the page starts. -/
def uiStart : UIState :=
  { loadingVisible := true, loadingText := "Loading 3D model...", errorStyle := false }

/- A mesh node without material. -/
def node0 : SceneNode :=
  SceneNode.mk true MaterialSlot.noMat SceneForest.nil

/- A viewer state as it stands after init, before any load. -/
def sampleState : ViewerState K :=
  { camera := { position := ⟨0, 5, 10⟩, fov := 45, aspect := 4 / 3, near := 0.1, far := 10000 },
    controls := Option.some { target := ⟨0, 0, 0⟩ },
    modelGroup := SceneForest.nil,
    initialCameraState := Option.none,
    rendW := 800,
    rendH := 600,
    pxScale := 1,
    ui := uiStart,
    hasRenderer := true,
    hasScene := true,
    hasCamera := true,
    loadStarted := true }

/- The same state with a fov of 90 degrees, for the degenerate-box
witness, where tan(fov/2) = tan(pi/4) = 1. -/
def sampleState90 : ViewerState K :=
  { sampleState with camera := { (sampleState : ViewerState K).camera with fov := 90 } }

/- The rational instance of the sample state. -/
def s0 : ViewerState ℚ :=
  sampleState

/- A parse result with a scene. -/
def g0 : GLTF :=
  { scene := Option.some node0, scenes := [] }

/- A bounding box oracle that reports the unit-radius cube. -/
def boxOf0 : SceneForest → Box3 ℚ :=
  fun _ => Box3.corners ⟨-1, -1, -1⟩ ⟨1, 1, 1⟩

/- A parse result with no default scene and an empty scenes list. -/
def g5 : GLTF :=
  { scene := Option.none, scenes := [] }

/- A viewer state that still shows a previously loaded model. -/
def s5 : ViewerState ℚ :=
  { s0 with modelGroup := SceneForest.cons node0 SceneForest.nil }

/- A startup environment in which OrbitControls does not resolve. -/
def env0 : InitEnv ℚ :=
  { hasOrbit := false, hasLoader := true, hasDraco := false,
    containerW := 800, containerH := 600, dpx := 1 }

/- The unit-radius cube: maxDim 2. -/
def boxCube : Box3 K :=
  Box3.corners ⟨-1, -1, -1⟩ ⟨1, 1, 1⟩

/- A larger cube: maxDim 4. -/
def boxCube4 : Box3 K :=
  Box3.corners ⟨0, 0, 0⟩ ⟨4, 4, 4⟩

/- A point box: well formed, zero volume, maxDim 0. -/
def boxPoint : Box3 K :=
  Box3.corners ⟨1, 2, 3⟩ ⟨1, 2, 3⟩

/- Helper lemmas. -/

/- The base-color block of adjustMaterial is idempotent: the branch
flags are untouched by the writes, so a second pass rewrites the same
values. -/
theorem adjustMap_idem (env : ThreeEnv) (t : Texture) :
    adjustMap env (adjustMap env t) = adjustMap env t := by
  by_cases h1 : t.hasColorSpace <;> by_cases h2 : t.hasEncoding <;>
    simp [adjustMap, h1, h2]

/- The emissive block of adjustMaterial is idempotent. -/
theorem adjustEmissiveMap_idem (env : ThreeEnv) (t : Texture) :
    adjustEmissiveMap env (adjustEmissiveMap env t) = adjustEmissiveMap env t := by
  by_cases h1 : t.hasColorSpace <;> by_cases h2 : t.hasEncoding <;>
    simp [adjustEmissiveMap, h1, h2]

/- The light-map block of adjustMaterial is idempotent. -/
theorem adjustLightMap_idem (env : ThreeEnv) (t : Texture) :
    adjustLightMap env (adjustLightMap env t) = adjustLightMap env t := by
  by_cases h1 : t.hasColorSpace <;> by_cases h2 : t.hasEncoding <;>
    simp [adjustLightMap, h1, h2]

/- adjustMaterial is idempotent. -/
theorem adjustMaterial_idem (env : ThreeEnv) (m : Material) :
    adjustMaterial env (adjustMaterial env m) = adjustMaterial env m := by
  cases hm : m.map <;> cases he : m.emissiveMap <;> cases hl : m.lightMap <;>
    simp [adjustMaterial, hm, he, hl, adjustMap_idem, adjustEmissiveMap_idem,
      adjustLightMap_idem]

/- The per-node material handling is idempotent, for single materials
and for material arrays. -/
theorem adjustSlot_idem (env : ThreeEnv) (slot : MaterialSlot) :
    adjustSlot env (adjustSlot env slot) = adjustSlot env slot := by
  cases slot with
  | noMat => rfl
  | single m => simp [adjustSlot, adjustMaterial_idem]
  | multi ms =>
      simp only [adjustSlot, MaterialSlot.multi.injEq]
      induction ms with
      | nil => rfl
      | cons a l ih => simp [adjustMaterial_idem, ih]

mutual

theorem normalizeNode_idem (env : ThreeEnv) : ∀ n : SceneNode,
    normalizeNode env (normalizeNode env n) = normalizeNode env n
  | SceneNode.mk isMesh material children => by
      cases isMesh <;>
        simp [normalizeNode, adjustSlot_idem, normalizeForest_idem env children]

theorem normalizeForest_idem (env : ThreeEnv) : ∀ f : SceneForest,
    normalizeForest env (normalizeForest env f) = normalizeForest env f
  | SceneForest.nil => rfl
  | SceneForest.cons n f => by
      simp [normalizeForest, normalizeNode_idem env n, normalizeForest_idem env f]

end

/- For a field of view given in degrees strictly between 0 and 180, the
tangent of half the radian angle is strictly positive. -/
theorem tanDeg_pos (d : ℝ) (h1 : 0 < d) (h2 : d < 180) :
    0 < Real.tan (d * (Real.pi / 180) / 2) := by
  have hpi := Real.pi_pos
  apply Real.tan_pos_of_pos_of_lt_pi_div_two
  · nlinarith
  · nlinarith

/- The tangent of three quarters pi is minus one. -/
theorem tan_three_pi_div_four : Real.tan (3 * Real.pi / 4) = -1 := by
  have h : 3 * Real.pi / 4 = Real.pi - Real.pi / 4 := by ring
  have h2 : (0:ℝ) < Real.sqrt 2 / 2 := by positivity
  rw [h, Real.tan_eq_sin_div_cos, Real.sin_pi_sub, Real.cos_pi_sub,
    Real.sin_pi_div_four, Real.cos_pi_div_four, div_neg, div_self h2.ne']

/-- C3: the claim says the material normalizer sets each present slot
to the standard display color space when the slot supports colorSpace,
and otherwise falls back to setting the legacy encoding property to the
sRGB encoding value.  The code does this for the base-color map (it
writes THREE.sRGBEncoding, line 154), but for the emissive and light
map fallbacks it writes THREE.SRGBEncoding (lines 162 and 169), a
constant that does not exist in three.js, so those slots receive
undefined instead of the sRGB encoding value 3001.  This theorem
evaluates adjustMaterial at such a failing input: the emissive slot of
matEmissive ends with encoding undefined, while the same texture in the
base-color slot correctly receives 3001 and a cleared flip flag. -/
theorem adjustMaterial_emissive_encoding_bug :
    (adjustMaterial threeStd matEmissive).emissiveMap =
      Option.some { texEnc with encoding := JSVal.undef } ∧
    threeStd.SRGBEncoding = JSVal.undef ∧
    threeStd.sRGBEncoding = JSVal.num 3001 ∧
    JSVal.undef ≠ JSVal.num 3001 ∧
    (adjustMaterial threeStd { matEmissive with map := Option.some texEnc }).map =
      Option.some { texEnc with encoding := JSVal.num 3001, flipY := false } := by
  decide

/-- C4: the material normalization traversal is idempotent: applying
normalizeNode twice to any scene graph, under any THREE constant
environment, yields exactly the graph obtained by applying it once, so
all color-space tags, encoding values and flip flags agree. -/
theorem normalize_idempotent (env : ThreeEnv) (n : SceneNode) :
    normalizeNode env (normalizeNode env n) = normalizeNode env n :=
  normalizeNode_idem env n

/-- C7: when no initial camera snapshot exists, resetView is a no-op:
the whole viewer state, camera and orbit target included, is returned
unchanged, and no failure occurs. -/
theorem resetView_no_snapshot_noop (s : ViewerState K)
    (h : s.initialCameraState = Option.none) :
    resetView s = s := by
  unfold resetView
  rw [h]

/-- Witness for C7 at a concrete state with no snapshot. -/
theorem resetView_no_snapshot_noop_witness :
    s0.initialCameraState = Option.none ∧ resetView s0 = s0 :=
  ⟨rfl, resetView_no_snapshot_noop s0 rfl⟩

/-- C8: the resize handler sets the camera aspect to the new width over
height and leaves fov, near and far unchanged (the render surface is
resized to the new dimensions). -/
theorem onWindowResize_updates_aspect_only (s : ViewerState K) (w h : K) :
    (onWindowResize w h s).camera.aspect = w / h ∧
    (onWindowResize w h s).camera.fov = s.camera.fov ∧
    (onWindowResize w h s).camera.near = s.camera.near ∧
    (onWindowResize w h s).camera.far = s.camera.far ∧
    (onWindowResize w h s).rendW = w ∧
    (onWindowResize w h s).rendH = h :=
  ⟨rfl, rfl, rfl, rfl, rfl, rfl⟩

/-- C10: the loader error callback only logs and shows an error
message: the scene graph in modelGroup, the camera pose, the controls
target and the initial-pose snapshot are all unchanged, and the render
guard is unaffected, so a previously loaded model keeps rendering. -/
theorem onLoadError_preserves_scene (s : ViewerState K) :
    (onLoadError s).modelGroup = s.modelGroup ∧
    (onLoadError s).camera = s.camera ∧
    (onLoadError s).controls = s.controls ∧
    (onLoadError s).initialCameraState = s.initialCameraState ∧
    (onLoadError s).ui.errorStyle = true ∧
    (onLoadError s).ui.loadingVisible = true ∧
    (onLoadError s).ui.loadingText = "Failed to load 3D model. See console for details." ∧
    rendersFrame (onLoadError s) = rendersFrame s :=
  ⟨rfl, rfl, rfl, rfl, rfl, rfl, rfl, rfl⟩

/-- C5 (amended): a load whose parsed result contains no scene (no
default scene and no entry in the scenes list) transitions to the
failed state: the visible error message is shown with error styling, no
camera framing occurs (camera, controls target and the initial-pose
snapshot are unchanged) — but the previously-rendered scene graph is
not left untouched: modelGroup is cleared before the scene check runs,
so the prior model has been removed and modelGroup is empty. -/
theorem emptyScene_load_fails (ops : FloatOps K) (boxOf : SceneForest → Box3 K)
    (env : ThreeEnv) (s : ViewerState K) (g : GLTF)
    (hsel : selectScene g = Option.none) :
    (onLoadSuccess ops boxOf env s g).ui.errorStyle = true ∧
    (onLoadSuccess ops boxOf env s g).ui.loadingVisible = true ∧
    (onLoadSuccess ops boxOf env s g).ui.loadingText = "Loaded file contains no scene." ∧
    (onLoadSuccess ops boxOf env s g).camera = s.camera ∧
    (onLoadSuccess ops boxOf env s g).initialCameraState = s.initialCameraState ∧
    (onLoadSuccess ops boxOf env s g).controls = s.controls ∧
    (onLoadSuccess ops boxOf env s g).modelGroup = SceneForest.nil := by
  unfold onLoadSuccess
  rw [hsel]
  exact ⟨rfl, rfl, rfl, rfl, rfl, rfl, rfl⟩

/-- Witness for C5 at a concrete empty-scene result. -/
theorem emptyScene_load_fails_witness :
    selectScene g5 = Option.none ∧
    ((onLoadSuccess toyOps boxOf0 threeStd s5 g5).ui.errorStyle = true ∧
     (onLoadSuccess toyOps boxOf0 threeStd s5 g5).ui.loadingVisible = true ∧
     (onLoadSuccess toyOps boxOf0 threeStd s5 g5).ui.loadingText = "Loaded file contains no scene." ∧
     (onLoadSuccess toyOps boxOf0 threeStd s5 g5).camera = s5.camera ∧
     (onLoadSuccess toyOps boxOf0 threeStd s5 g5).initialCameraState = s5.initialCameraState ∧
     (onLoadSuccess toyOps boxOf0 threeStd s5 g5).controls = s5.controls ∧
     (onLoadSuccess toyOps boxOf0 threeStd s5 g5).modelGroup = SceneForest.nil) :=
  ⟨rfl, emptyScene_load_fails toyOps boxOf0 threeStd s5 g5 rfl⟩

/-- Counterexample for C5 as stated: at a state s5 that still renders a
previously loaded model, an empty-scene load result does not leave the
scene graph untouched — modelGroup is cleared before the scene check,
so the previous model is gone. -/
theorem emptyScene_clears_previous_group :
    selectScene g5 = Option.none ∧
    s5.modelGroup = SceneForest.cons node0 SceneForest.nil ∧
    (onLoadSuccess toyOps boxOf0 threeStd s5 g5).modelGroup ≠ s5.modelGroup := by
  refine ⟨rfl, rfl, ?_⟩
  intro h
  rw [show (onLoadSuccess toyOps boxOf0 threeStd s5 g5).modelGroup = SceneForest.nil from rfl,
    show s5.modelGroup = SceneForest.cons node0 SceneForest.nil from rfl] at h
  exact SceneForest.noConfusion h

/-- C9 (amended): when the interactive-orbit capability is absent at
startup, a visible non-fatal error is surfaced and the remaining
initialization is aborted: the asset load is not started, no controls
are attached and no snapshot exists — but the render loop does keep
rendering the scene, because renderer, scene and camera are created
before the capability check and the per-frame guard only tests those
three; only the per-frame controls update is skipped. -/
theorem init_no_orbit_aborts (env : InitEnv K) (ui0 : UIState)
    (h : env.hasOrbit = false) :
    (initViewer env ui0).ui.errorStyle = true ∧
    (initViewer env ui0).ui.loadingVisible = true ∧
    (initViewer env ui0).ui.loadingText = "OrbitControls not available in this build of three.js." ∧
    (initViewer env ui0).loadStarted = false ∧
    (initViewer env ui0).controls = Option.none ∧
    (initViewer env ui0).initialCameraState = Option.none ∧
    rendersFrame (initViewer env ui0) = true := by
  unfold initViewer
  rw [h]
  exact ⟨rfl, rfl, rfl, rfl, rfl, rfl, rfl⟩

/-- Witness for C9 at a concrete environment without OrbitControls. -/
theorem init_no_orbit_aborts_witness :
    env0.hasOrbit = false ∧
    ((initViewer env0 uiStart).ui.errorStyle = true ∧
     (initViewer env0 uiStart).ui.loadingVisible = true ∧
     (initViewer env0 uiStart).ui.loadingText = "OrbitControls not available in this build of three.js." ∧
     (initViewer env0 uiStart).loadStarted = false ∧
     (initViewer env0 uiStart).controls = Option.none ∧
     (initViewer env0 uiStart).initialCameraState = Option.none ∧
     rendersFrame (initViewer env0 uiStart) = true) :=
  ⟨rfl, init_no_orbit_aborts env0 uiStart rfl⟩

/-- Counterexample for C9 as stated: with OrbitControls absent, the
error is shown and the load is aborted, yet the render guard of the
animation loop still evaluates to true, so the loop renders the
unconfigured scene each frame. -/
theorem init_no_orbit_still_renders :
    env0.hasOrbit = false ∧
    (initViewer env0 uiStart).ui.errorStyle = true ∧
    (initViewer env0 uiStart).loadStarted = false ∧
    rendersFrame (initViewer env0 uiStart) = true :=
  ⟨rfl, rfl, rfl, rfl⟩

/-- C6: after a successful load (the parse result has a scene and the
controls exist, as they must for the load to have started), the
initial-pose snapshot stored at framing time is a value snapshot:
arbitrary intervening navigation, which overwrites the live camera
position and orbit target, does not alter it, and resetView copies the
snapshot position back onto the live camera and the snapshot target
back onto the orbit controls, bit-equal to the stored values. -/
theorem resetView_restores_initial_pose (ops : FloatOps K) (boxOf : SceneForest → Box3 K)
    (env : ThreeEnv) (s : ViewerState K) (g : GLTF) (m0 : SceneNode) (c0 : ControlsState K)
    (p t : Vec3 K) (snap : PoseSnapshot K)
    (hc : s.controls = Option.some c0)
    (hm : selectScene g = Option.some m0)
    (hsnap : (onLoadSuccess ops boxOf env s g).initialCameraState = Option.some snap) :
    (resetView (navigate p t (onLoadSuccess ops boxOf env s g))).camera.position = snap.position ∧
    (resetView (navigate p t (onLoadSuccess ops boxOf env s g))).controls =
      Option.some { target := snap.target } ∧
    (navigate p t (onLoadSuccess ops boxOf env s g)).initialCameraState = Option.some snap := by
  have hN : (navigate p t (onLoadSuccess ops boxOf env s g)).initialCameraState
      = Option.some snap := hsnap
  have hXc : (navigate p t (onLoadSuccess ops boxOf env s g)).controls
      = Option.some { target := t } := by
    unfold navigate onLoadSuccess
    rw [hm]
    simp [frameModel, hc]
  refine ⟨?_, ?_, hN⟩
  · unfold resetView
    rw [hN]
  · unfold resetView
    rw [hN]
    show Option.map _ (navigate p t (onLoadSuccess ops boxOf env s g)).controls
      = Option.some { target := snap.target }
    rw [hXc]
    rfl

/-- Witness for C6 at a fully concrete rational load followed by a
concrete navigation. -/
theorem resetView_restores_initial_pose_witness :
    s0.controls = Option.some { target := ⟨0, 0, 0⟩ } ∧
    selectScene g0 = Option.some node0 ∧
    (onLoadSuccess toyOps boxOf0 threeStd s0 g0).initialCameraState =
      Option.some { position := ⟨0, 0, 9 / 2⟩, target := ⟨0, 0, 0⟩ } ∧
    ((resetView (navigate ⟨7, 8, 9⟩ ⟨1, 1, 1⟩ (onLoadSuccess toyOps boxOf0 threeStd s0 g0))).camera.position =
        (⟨0, 0, 9 / 2⟩ : Vec3 ℚ) ∧
     (resetView (navigate ⟨7, 8, 9⟩ ⟨1, 1, 1⟩ (onLoadSuccess toyOps boxOf0 threeStd s0 g0))).controls =
        Option.some { target := ⟨0, 0, 0⟩ } ∧
     (navigate ⟨7, 8, 9⟩ ⟨1, 1, 1⟩ (onLoadSuccess toyOps boxOf0 threeStd s0 g0)).initialCameraState =
        Option.some { position := ⟨0, 0, 9 / 2⟩, target := ⟨0, 0, 0⟩ }) := by
  have hsnap : (onLoadSuccess toyOps boxOf0 threeStd s0 g0).initialCameraState =
      Option.some { position := ⟨0, 0, 9 / 2⟩, target := ⟨0, 0, 0⟩ } := by
    simp only [onLoadSuccess, selectScene, g0, s0, sampleState, boxOf0, toyOps, frameModel,
      frameDistance, boxSize, boxCenter, maxDimOf, showError]
    norm_num
  exact ⟨rfl, rfl, hsnap,
    resetView_restores_initial_pose toyOps boxOf0 threeStd s0 g0 node0
      { target := ⟨0, 0, 0⟩ } ⟨7, 8, 9⟩ ⟨1, 1, 1⟩
      { position := ⟨0, 0, 9 / 2⟩, target := ⟨0, 0, 0⟩ } rfl rfl hsnap⟩

/-- C1 (amended): for a camera fov strictly between 0 and 180 degrees
(a valid frustum angle, in radians strictly between 0 and pi) and a
bounding volume with maxDim strictly positive, frameModel computes
distance = (maxDim / (2 * tan(fov / 2))) * 1.5 + 0.5, places the camera
at center + (0, 0, distance) along the z axis, sets the orbit target to
the center, sets near = max(0.01, distance / 1000) and
far = 100 * distance, and the distance is strictly monotone in maxDim:
any box with a larger maxDim gets a strictly larger distance.  The
restriction fov < 180 degrees is forced: for wider angles the tangent
is negative and monotonicity reverses (see the counterexample). -/
theorem frameModel_framing_formula (s : ViewerState ℝ) (box boxBig : Box3 ℝ)
    (c0 : ControlsState ℝ)
    (hc : s.controls = Option.some c0)
    (h1 : 0 < s.camera.fov) (h2 : s.camera.fov < 180)
    (_h3 : 0 < maxDimOf box) (h4 : maxDimOf box < maxDimOf boxBig) :
    (frameModel (FloatOps.mk Real.tan Real.pi) box s).camera.position =
      ⟨(boxCenter box).x, (boxCenter box).y, (boxCenter box).z +
        frameDistance (FloatOps.mk Real.tan Real.pi) (maxDimOf box)
          (s.camera.fov * (Real.pi / 180))⟩ ∧
    (frameModel (FloatOps.mk Real.tan Real.pi) box s).controls =
      Option.some { target := boxCenter box } ∧
    (frameModel (FloatOps.mk Real.tan Real.pi) box s).camera.near =
      max 0.01 (frameDistance (FloatOps.mk Real.tan Real.pi) (maxDimOf box)
        (s.camera.fov * (Real.pi / 180)) / 1000) ∧
    (frameModel (FloatOps.mk Real.tan Real.pi) box s).camera.far =
      100 * frameDistance (FloatOps.mk Real.tan Real.pi) (maxDimOf box)
        (s.camera.fov * (Real.pi / 180)) ∧
    frameDistance (FloatOps.mk Real.tan Real.pi) (maxDimOf box)
        (s.camera.fov * (Real.pi / 180)) =
      maxDimOf box / (2 * Real.tan (s.camera.fov * (Real.pi / 180) / 2)) * 1.5 + 0.5 ∧
    frameDistance (FloatOps.mk Real.tan Real.pi) (maxDimOf box)
        (s.camera.fov * (Real.pi / 180)) <
      frameDistance (FloatOps.mk Real.tan Real.pi) (maxDimOf boxBig)
        (s.camera.fov * (Real.pi / 180)) := by
  have ht : 0 < Real.tan (s.camera.fov * (Real.pi / 180) / 2) := tanDeg_pos _ h1 h2
  refine ⟨rfl, ?_, rfl, mul_comm _ _, rfl, ?_⟩
  · show Option.map _ s.controls = _
    rw [hc]
    rfl
  · simp only [frameDistance]
    have h2t : (0:ℝ) < 2 * Real.tan (s.camera.fov * (Real.pi / 180) / 2) := by linarith
    have hdiv : maxDimOf box / (2 * Real.tan (s.camera.fov * (Real.pi / 180) / 2)) <
        maxDimOf boxBig / (2 * Real.tan (s.camera.fov * (Real.pi / 180) / 2)) :=
      (div_lt_div_iff_of_pos_right h2t).mpr h4
    linarith

/-- Witness for C1 at the sample state (fov 45 degrees) with the
unit-radius cube and a larger cube. -/
theorem frameModel_framing_formula_witness :
    (sampleState : ViewerState ℝ).controls = Option.some { target := ⟨0, 0, 0⟩ } ∧
    0 < (sampleState : ViewerState ℝ).camera.fov ∧
    (sampleState : ViewerState ℝ).camera.fov < 180 ∧
    0 < maxDimOf (boxCube : Box3 ℝ) ∧
    maxDimOf (boxCube : Box3 ℝ) < maxDimOf (boxCube4 : Box3 ℝ) ∧
    ((frameModel (FloatOps.mk Real.tan Real.pi) (boxCube : Box3 ℝ) sampleState).camera.position =
      ⟨(boxCenter (boxCube : Box3 ℝ)).x, (boxCenter (boxCube : Box3 ℝ)).y,
        (boxCenter (boxCube : Box3 ℝ)).z +
        frameDistance (FloatOps.mk Real.tan Real.pi) (maxDimOf (boxCube : Box3 ℝ))
          ((sampleState : ViewerState ℝ).camera.fov * (Real.pi / 180))⟩ ∧
    (frameModel (FloatOps.mk Real.tan Real.pi) (boxCube : Box3 ℝ) sampleState).controls =
      Option.some { target := boxCenter (boxCube : Box3 ℝ) } ∧
    (frameModel (FloatOps.mk Real.tan Real.pi) (boxCube : Box3 ℝ) sampleState).camera.near =
      max 0.01 (frameDistance (FloatOps.mk Real.tan Real.pi) (maxDimOf (boxCube : Box3 ℝ))
        ((sampleState : ViewerState ℝ).camera.fov * (Real.pi / 180)) / 1000) ∧
    (frameModel (FloatOps.mk Real.tan Real.pi) (boxCube : Box3 ℝ) sampleState).camera.far =
      100 * frameDistance (FloatOps.mk Real.tan Real.pi) (maxDimOf (boxCube : Box3 ℝ))
        ((sampleState : ViewerState ℝ).camera.fov * (Real.pi / 180)) ∧
    frameDistance (FloatOps.mk Real.tan Real.pi) (maxDimOf (boxCube : Box3 ℝ))
        ((sampleState : ViewerState ℝ).camera.fov * (Real.pi / 180)) =
      maxDimOf (boxCube : Box3 ℝ) /
        (2 * Real.tan ((sampleState : ViewerState ℝ).camera.fov * (Real.pi / 180) / 2)) * 1.5 + 0.5 ∧
    frameDistance (FloatOps.mk Real.tan Real.pi) (maxDimOf (boxCube : Box3 ℝ))
        ((sampleState : ViewerState ℝ).camera.fov * (Real.pi / 180)) <
      frameDistance (FloatOps.mk Real.tan Real.pi) (maxDimOf (boxCube4 : Box3 ℝ))
        ((sampleState : ViewerState ℝ).camera.fov * (Real.pi / 180))) := by
  have hfov1 : (0:ℝ) < (sampleState : ViewerState ℝ).camera.fov := by
    show (0:ℝ) < 45
    norm_num
  have hfov2 : (sampleState : ViewerState ℝ).camera.fov < 180 := by
    show (45:ℝ) < 180
    norm_num
  have hm1 : 0 < maxDimOf (boxCube : Box3 ℝ) := by
    show (0:ℝ) < max (1 - -1) (max (1 - -1) (1 - -1))
    norm_num
  have hm2 : maxDimOf (boxCube : Box3 ℝ) < maxDimOf (boxCube4 : Box3 ℝ) := by
    show max ((1:ℝ) - -1) (max (1 - -1) (1 - -1)) < max (4 - 0) (max (4 - 0) (4 - 0))
    norm_num
  exact ⟨rfl, hfov1, hfov2, hm1, hm2,
    frameModel_framing_formula sampleState boxCube boxCube4 { target := ⟨0, 0, 0⟩ }
      rfl hfov1 hfov2 hm1 hm2⟩

/-- Counterexample for C1 as stated: the claim quantifies over every
positive fov, but for fov = 270 degrees = 3 pi / 2 radians (a positive
fov), tan(fov / 2) = tan(3 pi / 4) = -1 is negative, and the computed
distance strictly decreases as maxDim grows from 1 to 2, so the
distance is not monotonically increasing in maxDim. -/
theorem frameDistance_not_monotone_wide_fov :
    0 < (270:ℝ) * (Real.pi / 180) ∧
    (0:ℝ) < 1 ∧ (1:ℝ) < 2 ∧
    frameDistance (FloatOps.mk Real.tan Real.pi) 2 (270 * (Real.pi / 180)) <
      frameDistance (FloatOps.mk Real.tan Real.pi) 1 (270 * (Real.pi / 180)) := by
  have hpi := Real.pi_pos
  have harg : (270:ℝ) * (Real.pi / 180) / 2 = 3 * Real.pi / 4 := by ring
  have ht : Real.tan ((270:ℝ) * (Real.pi / 180) / 2) = -1 := by
    rw [harg, tan_three_pi_div_four]
  refine ⟨by nlinarith, by norm_num, by norm_num, ?_⟩
  simp only [frameDistance]
  rw [ht]
  norm_num

/-- C2: for a degenerate (zero-volume or empty) well-formed bounding
volume, with the tangent of half the camera fov positive (true for the
default fov of 45 degrees that the viewer never changes), the computed
distance is at least the offset 0.5, and the resulting camera values
are well-defined finite reals: the position is center plus the distance
along z, near equals max(0.01, distance / 1000) and so is at least
0.01, and far equals distance * 100 and so is at least 50.  In this
real-valued embedding every produced value is a real number, so no NaN
or infinity propagates into position, near or far. -/
theorem frameModel_degenerate_safe (s : ViewerState ℝ) (box : Box3 ℝ)
    (hwf : boxWF box) (_hdeg : degenerateVolume box)
    (ht : 0 < Real.tan (s.camera.fov * (Real.pi / 180) / 2)) :
    0.5 ≤ frameDistance (FloatOps.mk Real.tan Real.pi) (maxDimOf box)
      (s.camera.fov * (Real.pi / 180)) ∧
    (frameModel (FloatOps.mk Real.tan Real.pi) box s).camera.position =
      ⟨(boxCenter box).x, (boxCenter box).y, (boxCenter box).z +
        frameDistance (FloatOps.mk Real.tan Real.pi) (maxDimOf box)
          (s.camera.fov * (Real.pi / 180))⟩ ∧
    (frameModel (FloatOps.mk Real.tan Real.pi) box s).camera.near =
      max 0.01 (frameDistance (FloatOps.mk Real.tan Real.pi) (maxDimOf box)
        (s.camera.fov * (Real.pi / 180)) / 1000) ∧
    0.01 ≤ (frameModel (FloatOps.mk Real.tan Real.pi) box s).camera.near ∧
    (frameModel (FloatOps.mk Real.tan Real.pi) box s).camera.far =
      frameDistance (FloatOps.mk Real.tan Real.pi) (maxDimOf box)
        (s.camera.fov * (Real.pi / 180)) * 100 ∧
    50 ≤ (frameModel (FloatOps.mk Real.tan Real.pi) box s).camera.far := by
  have hmax : 0 ≤ maxDimOf box := by
    cases box with
    | empty => simp [maxDimOf, boxSize]
    | corners lo hi =>
        obtain ⟨ha, hb, hc2⟩ := hwf
        simp only [maxDimOf, boxSize]
        have hx : (0:ℝ) ≤ hi.x - lo.x := by linarith
        exact le_trans hx (le_max_left _ _)
  have hd : 0.5 ≤ frameDistance (FloatOps.mk Real.tan Real.pi) (maxDimOf box)
      (s.camera.fov * (Real.pi / 180)) := by
    simp only [frameDistance]
    have hdiv : 0 ≤ maxDimOf box /
        (2 * Real.tan (s.camera.fov * (Real.pi / 180) / 2)) :=
      div_nonneg hmax (by linarith)
    nlinarith
  refine ⟨hd, rfl, rfl, le_max_left _ _, rfl, ?_⟩
  show (50:ℝ) ≤ frameDistance (FloatOps.mk Real.tan Real.pi) (maxDimOf box)
    (s.camera.fov * (Real.pi / 180)) * 100
  linarith

/-- Witness for C2 at a point box (well formed, zero volume) and a fov
of 90 degrees, where tan(fov / 2) = tan(pi / 4) = 1 is positive. -/
theorem frameModel_degenerate_safe_witness :
    boxWF (boxPoint : Box3 ℝ) ∧
    degenerateVolume (boxPoint : Box3 ℝ) ∧
    0 < Real.tan ((sampleState90 : ViewerState ℝ).camera.fov * (Real.pi / 180) / 2) ∧
    (0.5 ≤ frameDistance (FloatOps.mk Real.tan Real.pi) (maxDimOf (boxPoint : Box3 ℝ))
      ((sampleState90 : ViewerState ℝ).camera.fov * (Real.pi / 180)) ∧
     (frameModel (FloatOps.mk Real.tan Real.pi) (boxPoint : Box3 ℝ) sampleState90).camera.position =
      ⟨(boxCenter (boxPoint : Box3 ℝ)).x, (boxCenter (boxPoint : Box3 ℝ)).y,
        (boxCenter (boxPoint : Box3 ℝ)).z +
        frameDistance (FloatOps.mk Real.tan Real.pi) (maxDimOf (boxPoint : Box3 ℝ))
          ((sampleState90 : ViewerState ℝ).camera.fov * (Real.pi / 180))⟩ ∧
     (frameModel (FloatOps.mk Real.tan Real.pi) (boxPoint : Box3 ℝ) sampleState90).camera.near =
      max 0.01 (frameDistance (FloatOps.mk Real.tan Real.pi) (maxDimOf (boxPoint : Box3 ℝ))
        ((sampleState90 : ViewerState ℝ).camera.fov * (Real.pi / 180)) / 1000) ∧
     0.01 ≤ (frameModel (FloatOps.mk Real.tan Real.pi) (boxPoint : Box3 ℝ) sampleState90).camera.near ∧
     (frameModel (FloatOps.mk Real.tan Real.pi) (boxPoint : Box3 ℝ) sampleState90).camera.far =
      frameDistance (FloatOps.mk Real.tan Real.pi) (maxDimOf (boxPoint : Box3 ℝ))
        ((sampleState90 : ViewerState ℝ).camera.fov * (Real.pi / 180)) * 100 ∧
     50 ≤ (frameModel (FloatOps.mk Real.tan Real.pi) (boxPoint : Box3 ℝ) sampleState90).camera.far) := by
  have hwf : boxWF (boxPoint : Box3 ℝ) := by
    show (1:ℝ) ≤ 1 ∧ (2:ℝ) ≤ 2 ∧ (3:ℝ) ≤ 3
    norm_num
  have hdeg : degenerateVolume (boxPoint : Box3 ℝ) := by
    right
    show ((1:ℝ) - 1) * ((2:ℝ) - 2) * ((3:ℝ) - 3) = 0
    norm_num
  have h90 : (sampleState90 : ViewerState ℝ).camera.fov * (Real.pi / 180) / 2 = Real.pi / 4 := by
    show (90:ℝ) * (Real.pi / 180) / 2 = Real.pi / 4
    ring
  have ht : 0 < Real.tan ((sampleState90 : ViewerState ℝ).camera.fov * (Real.pi / 180) / 2) := by
    rw [h90, Real.tan_pi_div_four]
    norm_num
  exact ⟨hwf, hdeg, ht, frameModel_degenerate_safe sampleState90 boxPoint hwf hdeg ht⟩
